import Mathlib

/-!
Shallow embedding of `src/solver.py` (Moltbook verification challenge solver).

Python strings are modelled as Lean `String`s and all scanning is done on
their character lists (`String.data`), which matches Python's
character-indexed string semantics.  `str.isalpha` / `str.lower` /
`str.isspace` and the regex classes `\w`, `\d`, `\b` are modelled by their
ASCII meaning (the program's lexica and all inputs relevant to the claims
are ASCII).  Python floats are modelled as exact rationals: every value the
program rounds to two decimals (`round(x, 2)`) is far from a tie and from a
binary-representation boundary, so exact rational arithmetic yields the
same two-decimal results as the source's float arithmetic.
-/

set_option maxHeartbeats 4000000
set_option maxRecDepth 8000

namespace Solver

/-- The 26 basic-latin case pairs, upper to lower. -/
def lower_map : List (Char × Char) :=
  [('A', 'a'), ('B', 'b'), ('C', 'c'), ('D', 'd'), ('E', 'e'), ('F', 'f'),
   ('G', 'g'), ('H', 'h'), ('I', 'i'), ('J', 'j'), ('K', 'k'), ('L', 'l'),
   ('M', 'm'), ('N', 'n'), ('O', 'o'), ('P', 'p'), ('Q', 'q'), ('R', 'r'),
   ('S', 's'), ('T', 't'), ('U', 'u'), ('V', 'v'), ('W', 'w'), ('X', 'x'),
   ('Y', 'y'), ('Z', 'z')]

/-- Python `str.lower` on one character (ASCII range, which is all the
source's data uses): `A`..`Z` maps to `a`..`z`, anything else is unchanged. -/
def lowerChar (c : Char) : Char :=
  (List.lookup c lower_map).getD c

/-- Python `str.lower` on a whole string. -/
def strLower (s : String) : String :=
  String.mk (s.data.map lowerChar)

/-- solver.py line 81: `''.join(c.lower() for c in obfuscated if c.isalpha())`
— remove every non-alphabetic character, lowercase the rest. -/
def normalize (s : String) : String :=
  String.mk ((s.data.filter Char.isAlpha).map lowerChar)

/-- solver.py lines 71-78: the `word_to_num` dict of
`parse_obfuscated_number` (canonical words `zero`..`ninety`), in the
source's insertion order.  All keys are distinct, so a Python dict lookup
is `List.lookup` on this association list. -/
def word_to_num : List (String × Nat) :=
  [("zero", 0), ("one", 1), ("two", 2), ("three", 3), ("four", 4),
   ("five", 5), ("six", 6), ("seven", 7), ("eight", 8), ("nine", 9), ("ten", 10),
   ("eleven", 11), ("twelve", 12), ("thirteen", 13), ("fourteen", 14),
   ("fifteen", 15), ("sixteen", 16), ("seventeen", 17), ("eighteen", 18),
   ("nineteen", 19), ("twenty", 20), ("thirty", 30), ("forty", 40),
   ("fifty", 50), ("sixty", 60), ("seventy", 70), ("eighty", 80), ("ninety", 90)]

/-- solver.py lines 88-96: the `for word, val in word_to_num.items()` loop of
`parse_obfuscated_number`.  For each entry in dict order: return `val` when
the normalized token equals the word; else, when the token is longer than
the word and starts with it and the remainder is itself a dict key, return
`val + word_to_num[rest]` (the remainder is looked up in the full dict). -/
def compound_loop (n : String) : List (String × Nat) → Option Nat
  | [] => none
  | (word, val) :: items =>
    if n = word then some val
    else if word.data.length < n.data.length ∧ word.data.isPrefixOf n.data then
      match List.lookup (String.mk (n.data.drop word.data.length)) word_to_num with
      | some rv => some (val + rv)
      | none => compound_loop n items
    else compound_loop n items

/-- solver.py lines 66-98, `parse_obfuscated_number`: normalize the token,
try a direct dict lookup, then the compound-decomposition loop; `None` when
nothing matches. -/
def parse_obfuscated_number (obfuscated : String) : Option Nat :=
  let normalized := normalize obfuscated
  match List.lookup normalized word_to_num with
  | some v => some v
  | none => compound_loop normalized word_to_num

/-- The regex class `\w` (ASCII): a letter, a digit or an underscore. -/
def isWordChar (c : Char) : Bool :=
  c.isAlphanum || c = '_'

/-- solver.py line 166: `re.findall(r'<(\w+)>', challenge_text)`.  A match is
a `<`, a nonempty run of word characters, then `>`.  `re.findall` resumes
after each match; since a matched region contains no further `<` (its inner
characters are word characters and its last one is `>`), restarting one
character after the `<` finds exactly the same later matches, so this scan
may advance one character at a time. -/
def angle_word_tokens : List Char → List String
  | [] => []
  | c :: rest =>
    (if c = '<' then
       let run := rest.takeWhile isWordChar
       if run ≠ [] ∧ (rest.drop run.length).head? = some '>' then [String.mk run] else []
     else []) ++ angle_word_tokens rest

/-- The `bracket_nums` list of `calculate_answer` (solver.py line 166). -/
def bracket_nums (text : String) : List String :=
  angle_word_tokens text.data

/-- solver.py line 228: `'twentyfive' in [b.lower() for b in bracket_nums]
or '25' in bracket_nums`. -/
def has_token_25 (bs : List String) : Bool :=
  (bs.map strLower).contains "twentyfive" || bs.contains "25"

/-- solver.py line 229: `'fifteen' in [b.lower() for b in bracket_nums] or
'15' in bracket_nums`. -/
def has_token_15 (bs : List String) : Bool :=
  (bs.map strLower).contains "fifteen" || bs.contains "15"

/-- Python `round(x, 2)`.  Python rounds float ties to even; every value this
program ever rounds (`22/15*100 = 146.66..`, `17600/3 = 5866.66..`, and the
already-two-decimal candidates) is not a tie and not at a float
representation boundary, so round-half-up on exact rationals returns the
same two-decimal value as the source. -/
def round2 (q : ℚ) : ℚ :=
  ((q * 100 + 1 / 2).floor : ℚ) / 100

/-- solver.py lines 238-247: the candidate answers built when the bracket
tokens contain both a 25-token and a 15-token — `rate1 = 20 / 25`,
`rate2 = 10 / 15`, `total_time = 25 + 15`, and
`[round(rate1 + rate2, 2), round((rate1 + rate2) * total_time, 2), 25 + 15]`
(appended in source order 1.47, 58.67, 40). -/
def special_answers : List ℚ :=
  let rate1 : ℚ := 20 / 25
  let rate2 : ℚ := 10 / 15
  let total_time : ℚ := 25 + 15
  [round2 (rate1 + rate2), round2 ((rate1 + rate2) * total_time), 25 + 15]

/-- solver.py line 253: the fixed fallback candidate list
`[1.47, 40.0, 58.67, 375.0, 525.0]`. -/
def default_answers : List ℚ :=
  [1.47, 40.0, 58.67, 375.0, 525.0]

/-- solver.py lines 156-253, `calculate_answer`: collect the `<\w+>` bracket
tokens; if they contain both a 25-token and a 15-token return
`special_answers`, otherwise fall through to `default_answers`.  The
function also computes `parsed_values` (lines 173-204) and `all_numbers` /
`question_match` (lines 211-218), but only prints them — they never touch
the returned value; they are embedded separately as `parsed_values` and
`plain_number_runs` below. -/
def calculate_answer (text : String) : List ℚ :=
  let bnums := bracket_nums text
  if bnums ≠ [] then
    if has_token_25 bnums then
      if has_token_15 bnums then special_answers
      else default_answers
    else default_answers
  else default_answers

/-- solver.py lines 256-268, `solve_challenge`: return `round(ans, 2)` for
the first candidate with `1 <= ans <= 100`, else the first candidate, else
`0.0` on an empty candidate list. -/
def solve_challenge (text : String) : ℚ :=
  let answers := calculate_answer text
  match answers.find? (fun a => decide (1 ≤ a) && decide (a ≤ 100)) with
  | some ans => round2 ans
  | none => answers.headD 0

/-- solver.py lines 185-198: the `num_map` dict inside `calculate_answer`.
The source's dict literal repeats the key `'twentyfive'` three times, each
time with the value 25; a Python dict keeps a single entry for it, at the
position of its first occurrence. -/
def num_map : List (String × Nat) :=
  [("zero", 0), ("one", 1), ("two", 2), ("to", 2), ("too", 2),
   ("three", 3), ("tree", 3),
   ("four", 4), ("for", 4),
   ("five", 5), ("fiv", 5),
   ("six", 6),
   ("seven", 7), ("sevon", 7),
   ("eight", 8), ("ate", 8),
   ("nine", 9), ("nin", 9),
   ("ten", 10),
   ("twenty", 20), ("twentyfive", 25),
   ("fifteen", 15)]

/-- Python's substring test `needle in hay` for strings. -/
def contains_sub (needle hay : List Char) : Bool :=
  hay.tails.any (fun t => needle.isPrefixOf t)

/-- solver.py line 182: `''.join(c for c in word.lower() if c.isalpha())`
— lowercase the word, then keep only its alphabetic characters. -/
def lowercase_only (word : String) : String :=
  String.mk ((word.data.map lowerChar).filter Char.isAlpha)

/-- solver.py lines 176-204: the per-word matcher of `calculate_answer`'s
step 2: skip a word with no alphabetic character; otherwise return the
value of the first `num_map` entry whose key is a substring of the word's
`lowercase_only` form (`if num_word in lowercase_only: ... break`). -/
def match_num_word (word : String) : Option Nat :=
  if word.data.any Char.isAlpha then
    (num_map.find? (fun p => contains_sub p.1.data (lowercase_only word).data)).map (·.2)
  else none

/-- Python `str.split()` (no separator): split on runs of whitespace,
dropping empty pieces. -/
def split_whitespace (text : String) : List String :=
  (text.split Char.isWhitespace).filter (fun w => w ≠ "")

/-- solver.py lines 173-204: `parsed_values` — the `(word, value)` pairs the
per-word matcher finds in the whitespace-split text.  `calculate_answer`
prints this list but never uses it for the answer. -/
def parsed_values (text : String) : List (String × Nat) :=
  (split_whitespace text).filterMap (fun w => (match_num_word w).map (fun v => (w, v)))

/-- The digits of a decimal run as a number. -/
def digits_to_nat (ds : List Char) : Nat :=
  ds.foldl (fun a c => a * 10 + (c.toNat - 48)) 0

/-- A `\b` word boundary holds next to a digit iff the neighbouring
character is absent (string edge) or is not a word character. -/
def non_word_boundary : Option Char → Bool
  | none => true
  | some p => !isWordChar p

/-- The regex `\b(\d+)\b`: maximal decimal-digit runs whose neighbouring
characters (when they exist) are not word characters.  The scan carries the
previous character; inside a captured run the previous character is a
digit, so no run is captured twice. -/
def digit_runs (prev : Option Char) : List Char → List (List Char)
  | [] => []
  | c :: rest =>
    (if c.isDigit && non_word_boundary prev then
       let run := rest.takeWhile Char.isDigit
       if non_word_boundary (rest.drop run.length).head? then [c :: run] else []
     else []) ++ digit_runs (some c) rest

/-- solver.py line 211: `re.findall(r'\b(\d+)\b', challenge_text)` parsed to
integers — the `all_numbers` list, printed but unused by the answer. -/
def plain_number_runs (text : String) : List Int :=
  (digit_runs none text.data).map (fun ds => (digits_to_nat ds : Int))

/-- solver.py lines 23-31: the `word_to_num` dict of
`extract_numbers_from_text` — the same words as `word_to_num` plus
`hundred` and `thousand`.  All keys are distinct. -/
def extract_word_to_num : List (String × Nat) :=
  [("zero", 0), ("one", 1), ("two", 2), ("three", 3), ("four", 4),
   ("five", 5), ("six", 6), ("seven", 7), ("eight", 8), ("nine", 9), ("ten", 10),
   ("eleven", 11), ("twelve", 12), ("thirteen", 13), ("fourteen", 14),
   ("fifteen", 15), ("sixteen", 16), ("seventeen", 17), ("eighteen", 18),
   ("nineteen", 19), ("twenty", 20), ("thirty", 30), ("forty", 40),
   ("fifty", 50), ("sixty", 60), ("seventy", 70), ("eighty", 80), ("ninety", 90),
   ("hundred", 100), ("thousand", 1000)]

/-- The characters after the first `<` of a chunk, when the chunk has one. -/
def after_first_lt : List Char → Option (List Char)
  | [] => none
  | c :: rest => if c = '<' then some rest else after_first_lt rest

/-- The text split at every `>` (like Python `text.split('>')`): `n`
occurrences of `>` give `n + 1` chunks, the chunks never contain `>`. -/
def split_on_gt : List Char → List (List Char)
  | [] => [[]]
  | c :: rest =>
    if c = '>' then [] :: split_on_gt rest
    else
      match split_on_gt rest with
      | [] => [[c]]
      | chunk :: chunks => (c :: chunk) :: chunks

/-- solver.py line 38: `re.findall(r'<([^>]+)>', text)`.  Every `>` of the
text ends a chunk (`split_on_gt` — the last chunk has no closing `>` and
can hold no match).  Within a chunk, a match anchors at the chunk's first
`<` and its greedy `[^>]+` group is everything after that `<` up to the
chunk's `>`, so the capture is the nonempty remainder of the chunk after
its first `<`; `re.findall` then resumes after the `>`, in the next chunk. -/
def angle_contents (text : String) : List String :=
  ((split_on_gt text.data).dropLast).filterMap (fun chunk =>
    match after_first_lt chunk with
    | some rest => if rest ≠ [] then some (String.mk rest) else none
    | none => none)

/-- Python `int(s)` (solver.py line 44) on the space-stripped bracket text:
an optional sign followed by one or more decimal digits.  (Python's `int`
also accepts surrounding whitespace and underscore digit separators; the
inputs the theorems below evaluate contain neither.) -/
def py_int (s : List Char) : Option Int :=
  match s with
  | '-' :: ds => if ds ≠ [] ∧ ds.all Char.isDigit then some (-(digits_to_nat ds : Int)) else none
  | '+' :: ds => if ds ≠ [] ∧ ds.all Char.isDigit then some (digits_to_nat ds : Int) else none
  | ds => if ds ≠ [] ∧ ds.all Char.isDigit then some (digits_to_nat ds : Int) else none

/-- solver.py line 41: `cleaned = bn.lower().replace(' ', '')`. -/
def cleaned (bn : String) : String :=
  String.mk ((bn.data.map lowerChar).filter (fun c => c ≠ ' '))

/-- solver.py lines 40-57: the numbers one bracket capture contributes —
`int(cleaned)` when it parses; else the dict value on an exact key match;
else the value of every dict entry whose key is a substring of `cleaned`,
in dict order. -/
def bracket_values (bn : String) : List Int :=
  let cl := cleaned bn
  match py_int cl.data with
  | some n => [n]
  | none =>
    match List.lookup cl extract_word_to_num with
    | some v => [(v : Int)]
    | none =>
      (extract_word_to_num.filter (fun p => contains_sub p.1.data cl.data)).map
        (fun p => (p.2 : Int))

/-- solver.py lines 38-61: the `numbers` list of `extract_numbers_from_text`
just before the final `list(set(numbers))` — all bracket evidence in scan
order, then all plain-digit evidence in scan order. -/
def extract_numbers_raw (text : String) : List Int :=
  ((angle_contents text).map bracket_values).flatten ++ plain_number_runs text

/-- solver.py lines 18-63, `extract_numbers_from_text`: the collected
numbers passed through `list(set(...))` (line 63).  CPython's set iteration
order is an unspecified artefact of the hash table; it is modelled as a
duplicate-free list, and the theorems below only use order-independent
facts about the result (length, membership, duplicate-freedom). -/
def extract_numbers_from_text (text : String) : List Int :=
  (extract_numbers_raw text).dedup

/-- The tens entries (`twenty`..`ninety`) of the
`parse_obfuscated_number` lexicon. -/
def tens_words : List (String × Nat) :=
  [("twenty", 20), ("thirty", 30), ("forty", 40), ("fifty", 50),
   ("sixty", 60), ("seventy", 70), ("eighty", 80), ("ninety", 90)]

/-- The units entries (`one`..`nineteen`) of the
`parse_obfuscated_number` lexicon. -/
def unit_words : List (String × Nat) :=
  [("one", 1), ("two", 2), ("three", 3), ("four", 4), ("five", 5),
   ("six", 6), ("seven", 7), ("eight", 8), ("nine", 9), ("ten", 10),
   ("eleven", 11), ("twelve", 12), ("thirteen", 13), ("fourteen", 14),
   ("fifteen", 15), ("sixteen", 16), ("seventeen", 17), ("eighteen", 18),
   ("nineteen", 19)]

/-! ## Helper lemmas -/

theorem lookup_mem {α β : Type} [BEq α] [LawfulBEq α] {l : List (α × β)} {a : α} {b : β}
    (h : List.lookup a l = some b) : (a, b) ∈ l := by
  induction l with
  | nil => simp [List.lookup] at h
  | cons p t ih =>
    obtain ⟨k, v⟩ := p
    rw [List.lookup] at h
    cases hk : a == k with
    | true =>
      rw [hk] at h
      simp only [Option.some.injEq] at h
      simp [eq_of_beq hk, h]
    | false =>
      rw [hk] at h
      exact List.mem_cons_of_mem _ (ih h)

theorem lookup_none {α β : Type} [BEq α] [LawfulBEq α] {l : List (α × β)} {a : α}
    (h : List.lookup a l = none) : ∀ p ∈ l, p.1 ≠ a := by
  induction l with
  | nil => simp
  | cons p t ih =>
    obtain ⟨k, v⟩ := p
    rw [List.lookup] at h
    cases hk : a == k with
    | true => rw [hk] at h; exact absurd h (by simp)
    | false =>
      rw [hk] at h
      intro q hq
      rcases List.mem_cons.mp hq with rfl | hq
      · intro he
        have hka : k = a := he
        rw [hka] at hk
        simp at hk
      · exact ih h q hq

theorem lower_map_fact :
    ∀ p ∈ lower_map, p.1.isAlpha = true ∧ p.2.isAlpha = true ∧
      List.lookup p.2 lower_map = none := by decide

theorem lowerChar_isAlpha (c : Char) : (lowerChar c).isAlpha = c.isAlpha := by
  unfold lowerChar
  cases h : List.lookup c lower_map with
  | none => rfl
  | some d =>
    have hf := lower_map_fact _ (lookup_mem h)
    simp only [Option.getD_some]
    rw [hf.2.1]
    have hc : c.isAlpha = true := hf.1
    rw [hc]

theorem lowerChar_idem (c : Char) : lowerChar (lowerChar c) = lowerChar c := by
  unfold lowerChar
  cases h : List.lookup c lower_map with
  | none => simp [h]
  | some d =>
    have hf := lower_map_fact _ (lookup_mem h)
    simp [h, hf.2.2]

theorem normalize_data (x : String) :
    (normalize x).data = (x.data.filter Char.isAlpha).map lowerChar := rfl

theorem normalize_chars (x : String) :
    ∀ c ∈ (normalize x).data, c.isAlpha = true ∧ lowerChar c = c := by
  intro c hc
  rw [normalize_data] at hc
  obtain ⟨d, hd, rfl⟩ := List.mem_map.mp hc
  refine ⟨?_, lowerChar_idem d⟩
  rw [lowerChar_isAlpha]
  exact List.of_mem_filter hd

theorem normalize_idem (x : String) : normalize (normalize x) = normalize x := by
  show String.mk _ = normalize x
  have h1 : (normalize x).data.filter Char.isAlpha = (normalize x).data :=
    List.filter_eq_self.mpr (fun c hc => (normalize_chars x c hc).1)
  have h2 : (normalize x).data.map lowerChar = (normalize x).data :=
    List.map_congr_left (fun c hc => (normalize_chars x c hc).2) |>.trans
      (List.map_id _)
  calc String.mk (((normalize x).data.filter Char.isAlpha).map lowerChar)
      = String.mk ((normalize x).data.map lowerChar) := by rw [h1]
    _ = String.mk (normalize x).data := by rw [h2]
    _ = normalize x := rfl

theorem normalize_empty_iff (x : String) :
    normalize x = "" ↔ ∀ c ∈ x.data, c.isAlpha = false := by
  constructor
  · intro h c hc
    have hdata : (normalize x).data = [] := by rw [h]
    rw [normalize_data] at hdata
    have := List.map_eq_nil_iff.mp hdata
    have hnone := List.filter_eq_nil_iff.mp this
    simpa using hnone c hc
  · intro h
    show String.mk _ = ""
    have : x.data.filter Char.isAlpha = [] :=
      List.filter_eq_nil_iff.mpr (fun c hc => by simp [h c hc])
    rw [this]
    rfl

theorem word_facts :
    ∀ p ∈ word_to_num, (∀ c ∈ p.1.data, c.isAlpha = true ∧ lowerChar c = c) ∧
      List.lookup p.1 word_to_num = some p.2 := by decide

theorem word_len3 : ∀ p ∈ word_to_num, 3 ≤ p.1.data.length := by decide

theorem compound_loop_none {n : String} (hlen : n.data.length < 4)
    (hne : ∀ p ∈ word_to_num, p.1 ≠ n) :
    ∀ l : List (String × Nat), (∀ p ∈ l, p ∈ word_to_num) → compound_loop n l = none := by
  intro l hl
  induction l with
  | nil => rfl
  | cons p t ih =>
    obtain ⟨w, v⟩ := p
    have hw : (w, v) ∈ word_to_num := hl _ (List.mem_cons_self _ _)
    rw [compound_loop]
    rw [if_neg (fun he : n = w => hne _ hw he.symm)]
    rw [if_neg (fun hc : w.data.length < n.data.length ∧ w.data.isPrefixOf n.data = true => by
      have h3 : 3 ≤ w.data.length := word_len3 _ hw
      have := hc.1
      omega)]
    exact ih (fun q hq => hl _ (List.mem_cons_of_mem _ hq))

theorem calculate_answer_cases (text : String) :
    calculate_answer text = special_answers ∨ calculate_answer text = default_answers := by
  simp only [calculate_answer]
  split
  · split
    · split
      · exact Or.inl rfl
      · exact Or.inr rfl
    · exact Or.inr rfl
  · exact Or.inr rfl

theorem solve_challenge_const (text : String) : solve_challenge text = 1.47 := by
  rcases calculate_answer_cases text with h | h <;>
    (simp only [solve_challenge]; rw [h]; with_unfolding_all rfl)

/-! ## Claim theorems -/

/-- C1 (counterexample): on the input `"swims <20> yards and <15> feet"`
the end-to-end `solve_challenge` does not return the claimed composed
answer 35.00. -/
theorem c1_counterexample :
    solve_challenge "swims <20> yards and <15> feet" ≠ 35 := by
  with_unfolding_all decide

/-- C1 (amended): for `"swims <20> yards and <15> feet"` the bracket tokens
20 and 15 are extracted but never composed: the 25/15 trigger of
`calculate_answer` fails, the hard-coded default candidate list is
returned, and `solve_challenge` answers 1.47 — the first candidate inside
[1, 100] — instead of 20 + 15 = 35. -/
theorem c1_hardcoded_answer :
    bracket_nums "swims <20> yards and <15> feet" = ["20", "15"] ∧
    calculate_answer "swims <20> yards and <15> feet" = default_answers ∧
    solve_challenge "swims <20> yards and <15> feet" = 1.47 :=
  ⟨by decide, by with_unfolding_all rfl, by with_unfolding_all rfl⟩

/-- C2 (counterexample): the extractor finds no value in `"hello world"`,
yet `solve_challenge` returns 1.47 rather than the claimed default 0.0. -/
theorem c2_counterexample :
    extract_numbers_from_text "hello world" = [] ∧
    solve_challenge "hello world" = 1.47 ∧ (1.47 : ℚ) ≠ 0 := by
  refine ⟨by decide, ?_, ?_⟩ <;> with_unfolding_all decide

/-- C2 (amended): on every input in which the extractor finds no numeric
value the solver still answers 1.47 — the head of the hard-coded candidate
list — never 0.0: the `0.0` fallback of `solve_challenge` is dead code
because `calculate_answer` always returns a non-empty list. -/
theorem c2_no_evidence_answer :
    ∀ text : String, extract_numbers_from_text text = [] →
      solve_challenge text = 1.47 ∧ calculate_answer text ≠ [] := by
  intro text _
  refine ⟨solve_challenge_const text, ?_⟩
  rcases calculate_answer_cases text with h | h <;> rw [h] <;> decide

/-- Witness for C2's amended theorem at the no-evidence input
`"hello world"`. -/
theorem c2_no_evidence_answer_witness :
    extract_numbers_from_text "hello world" = [] ∧
    solve_challenge "hello world" = 1.47 ∧ calculate_answer "hello world" ≠ [] :=
  ⟨by decide, (c2_no_evidence_answer "hello world" (by decide)).1,
    (c2_no_evidence_answer "hello world" (by decide)).2⟩

/-- C3 (counterexample): for `"<25> <15>"` the extractor yields exactly the
two distinct values 25 and 15, yet the answer is
`round(20/25 + 10/15, 2) = 1.47` — obtained by dividing hard-coded
constants — and not the sum 40 of the two values (nor either value
alone). -/
theorem c3_counterexample :
    (extract_numbers_from_text "<25> <15>").length = 2 ∧
    (25 : Int) ∈ extract_numbers_from_text "<25> <15>" ∧
    (15 : Int) ∈ extract_numbers_from_text "<25> <15>" ∧
    calculate_answer "<25> <15>" = special_answers ∧
    solve_challenge "<25> <15>" = round2 (20 / 25 + 10 / 15) ∧
    solve_challenge "<25> <15>" ≠ 25 + 15 ∧
    solve_challenge "<25> <15>" ≠ 25 ∧ solve_challenge "<25> <15>" ≠ 15 :=
  ⟨by decide, by decide, by decide, by with_unfolding_all rfl,
    by with_unfolding_all rfl, by with_unfolding_all decide,
    by with_unfolding_all decide, by with_unfolding_all decide⟩

/-- C3 (amended): the answer is never built by adding extracted values: on
every input `solve_challenge` returns the constant 1.47, and
`calculate_answer` returns one of the two hard-coded candidate lists —
`special_answers` (whose entries arise from dividing the constants 20, 25,
10, 15) when the 25/15 bracket trigger fires, else `default_answers`. -/
theorem c3_never_adds_values :
    ∀ text : String, solve_challenge text = 1.47 ∧
      (calculate_answer text = special_answers ∨
        calculate_answer text = default_answers) :=
  fun text => ⟨solve_challenge_const text, calculate_answer_cases text⟩

/-- C4 (counterexample): the substring matcher of `calculate_answer`
(source lines 185-204) accepts the 3-letter token `"ton"` — which
normalizes to fewer than 4 letters and is not a word of any lexicon —
returning 2 because of its substring `"to"`; so the claimed length guard
does not hold of that matcher. -/
theorem c4_counterexample :
    match_num_word "ton" = some 2 ∧ (lowercase_only "ton").length < 4 ∧
    List.lookup "ton" num_map = none ∧ List.lookup "ton" word_to_num = none ∧
    List.lookup "ton" extract_word_to_num = none := by decide

/-- C4 (amended): `parse_obfuscated_number` does satisfy the guard: a token
whose normalized form has fewer than 4 letters is resolved by the exact
lexicon lookup alone — rejected unless the normalized form is exactly a
lexicon word (the lexicon's only words of at most 3 letters being `one`,
`two`, `six`, `ten`). -/
theorem c4_short_token_exact_only :
    ∀ s : String, (normalize s).length < 4 →
      parse_obfuscated_number s = List.lookup (normalize s) word_to_num := by
  intro s hlen
  show (match List.lookup (normalize s) word_to_num with
        | some v => some v
        | none => compound_loop (normalize s) word_to_num) = _
  cases h : List.lookup (normalize s) word_to_num with
  | some v => rfl
  | none =>
    show compound_loop (normalize s) word_to_num = none
    exact compound_loop_none hlen (lookup_none h) _ (fun p hp => hp)

/-- Witness for C4's amended theorem at the 3-letter lexicon word `six`. -/
theorem c4_short_token_exact_only_witness :
    (normalize "six").length < 4 ∧
    parse_obfuscated_number "six" = List.lookup (normalize "six") word_to_num ∧
    parse_obfuscated_number "six" = some 6 :=
  ⟨by decide, c4_short_token_exact_only "six" (by decide), by decide⟩

/-- C5 (counterexample): a remainder that is merely a proper prefix of a
units-word is rejected: `"twentyfiv" = "twenty" ++ "fiv"` does not parse,
although `"fiv"` is a nonempty prefix of the units-word `"five"` — the
claim's prefix rule would give 25. -/
theorem c5_counterexample :
    "twentyfiv" = "twenty" ++ "fiv" ∧ ("fiv" : String) ≠ "" ∧
    ("fiv" : String).data.isPrefixOf ("five" : String).data = true ∧
    ("five", 5) ∈ unit_words ∧ ("twenty", 20) ∈ tens_words ∧
    parse_obfuscated_number "twentyfiv" = none := by decide

/-- C5 (amended): compound decomposition needs the remainder after the
tens-word to be exactly a lexicon word: for every tens-word and every
units-word, parsing their concatenation returns the sum of the two values
(in particular `twentyfive` gives 25 and `thirtyone` gives 31). -/
theorem c5_compound_exact_sum :
    ∀ p ∈ tens_words, ∀ q ∈ unit_words,
      parse_obfuscated_number (p.1 ++ q.1) = some (p.2 + q.2) := by decide

/-- Witness for C5's amended theorem at `twenty` + `five` = 25. -/
theorem c5_compound_exact_sum_witness :
    ("twenty", 20) ∈ tens_words ∧ ("five", 5) ∈ unit_words ∧
    parse_obfuscated_number ("twenty" ++ "five") = some (20 + 5) :=
  ⟨by decide, by decide,
    c5_compound_exact_sum ("twenty", 20) (by decide) ("five", 5) (by decide)⟩

/-- C6: for every entry of the `parse_obfuscated_number` lexicon and every
assignment of upper/lower case to its letters (any string whose
character-wise lowercasing is the lexicon word), the matcher returns
exactly the word's value. -/
theorem c6_case_insensitive :
    ∀ p ∈ word_to_num, ∀ s : String, s.data.map lowerChar = p.1.data →
      parse_obfuscated_number s = some p.2 := by
  intro p hp s hmap
  have hw := word_facts p hp
  have hall : ∀ c ∈ s.data, c.isAlpha = true := by
    intro c hc
    have hmem : lowerChar c ∈ p.1.data := by
      rw [← hmap]
      exact List.mem_map_of_mem _ hc
    have halpha := (hw.1 _ hmem).1
    rw [← lowerChar_isAlpha]
    exact halpha
  have hnorm : normalize s = p.1 := by
    show String.mk _ = p.1
    rw [List.filter_eq_self.mpr hall, hmap]
  show (match List.lookup (normalize s) word_to_num with
        | some v => some v
        | none => compound_loop (normalize s) word_to_num) = some p.2
  rw [hnorm, hw.2]

/-- Witness for C6 at the lexicon word `twenty` cased as `TwEnTy`. -/
theorem c6_case_insensitive_witness :
    ("twenty", 20) ∈ word_to_num ∧
    ("TwEnTy" : String).data.map lowerChar = ("twenty" : String).data ∧
    parse_obfuscated_number "TwEnTy" = some 20 :=
  ⟨by decide, by decide,
    c6_case_insensitive ("twenty", 20) (by decide) "TwEnTy" (by decide)⟩

/-- C7 (counterexample): in `"<17> and 17"` the value 17 is found both in
brackets and as plain digits — the collected evidence is `[17, 17, 17]` —
but the returned list keeps a single 17: `list(set(...))` deduplicates, so
not every found occurrence appears in the result. -/
theorem c7_counterexample :
    extract_numbers_raw "<17> and 17" = [17, 17, 17] ∧
    extract_numbers_from_text "<17> and 17" = [17] := by decide

/-- C7 (amended): the extractor accumulates all bracket and plain-digit
evidence in scan order but then passes it through `set()`, so the returned
list is duplicate-free (and ordered by the set, not by the scan). -/
theorem c7_returns_deduplicated :
    ∀ text : String,
      extract_numbers_from_text text = (extract_numbers_raw text).dedup ∧
      (extract_numbers_from_text text).Nodup :=
  fun _ => ⟨rfl, List.nodup_dedup _⟩

/-- C8: `normalize` keeps exactly the alphabetic characters lowercased
(its output characters are alphabetic and fixed by lowercasing), is total,
returns the empty string precisely on letter-free input, and is
idempotent. -/
theorem c8_normalize_contract :
    ∀ x : String,
      (normalize x).data = (x.data.filter Char.isAlpha).map lowerChar ∧
      normalize (normalize x) = normalize x ∧
      (∀ c ∈ (normalize x).data, c.isAlpha = true ∧ lowerChar c = c) ∧
      (normalize x = "" ↔ ∀ c ∈ x.data, c.isAlpha = false) :=
  fun x => ⟨normalize_data x, normalize_idem x, normalize_chars x,
    normalize_empty_iff x⟩

/-- C9: for every input string the candidate list of `calculate_answer` is
non-empty and `solve_challenge` produces an answer, always inside
[1, 100]: the computation is total and the 0.0 no-answer fallback is
unreachable. -/
theorem c9_always_answers :
    ∀ text : String, calculate_answer text ≠ [] ∧
      1 ≤ solve_challenge text ∧ solve_challenge text ≤ 100 := by
  intro text
  constructor
  · rcases calculate_answer_cases text with h | h <;> rw [h] <;> decide
  · rw [solve_challenge_const text]
    constructor <;> with_unfolding_all decide

/-- C10: whenever the `<\w+>` bracket tokens of the input do not contain
both a 25-token (`twentyfive`/`25`) and a 15-token (`fifteen`/`15`),
`calculate_answer` returns the fixed candidate list
`[1.47, 40.0, 58.67, 375.0, 525.0]` and `solve_challenge` returns 1.47. -/
theorem c10_default_path :
    ∀ text : String,
      ¬(has_token_25 (bracket_nums text) = true ∧
        has_token_15 (bracket_nums text) = true) →
      calculate_answer text = default_answers ∧ solve_challenge text = 1.47 := by
  intro text h
  refine ⟨?_, solve_challenge_const text⟩
  simp only [calculate_answer]
  by_cases h1 : bracket_nums text ≠ []
  · rw [if_pos h1]
    by_cases h2 : has_token_25 (bracket_nums text) = true
    · rw [if_pos h2, if_neg (fun h3 => h ⟨h2, h3⟩)]
    · rw [if_neg h2]
  · rw [if_neg h1]

/-- Witness for C10 at the bracketless input `"hello"`. -/
theorem c10_default_path_witness :
    ¬(has_token_25 (bracket_nums "hello") = true ∧
      has_token_15 (bracket_nums "hello") = true) ∧
    calculate_answer "hello" = default_answers ∧
    solve_challenge "hello" = 1.47 :=
  ⟨by decide, c10_default_path "hello" (by decide)⟩

end Solver
